import Mathlib

/-!
Verification of the injury-dashboard data pipeline (`src/app.py`).

The pipeline is embedded shallowly: a pandas DataFrame becomes a list of
records with `Option`-valued cells (`none` models a missing cell / NaN / NaT),
the date parser behind `pd.to_datetime` is an explicit parameter, and the
filesystem and CSV decoder touched by `load_data` become an explicit
environment value.  Every definition follows the corresponding lines of
`src/app.py`; definitions that instead follow the specification's wording
(for refinement comparisons) say so in their doc comment.
-/

namespace InjuryDash

/-! ### Substring matching (Python `pat in s`, used at app.py line 49) -/

/-- Containment of `pat` as a contiguous sublist, as in Python `pat in s`. -/
def sublistIn (pat : List Char) : List Char → Bool
  | [] => pat.isEmpty
  | c :: rest => pat.isPrefixOf (c :: rest) || sublistIn pat rest

/-- Python substring containment `pat in s` on strings. -/
def hasSubstr (s pat : String) : Bool :=
  sublistIn pat.data s.data

theorem sublistIn_iff (pat l : List Char) :
    sublistIn pat l = true ↔ ∃ pre post, l = pre ++ pat ++ post := by
  induction l with
  | nil =>
    simp only [sublistIn, List.isEmpty_iff]
    constructor
    · intro h
      exact ⟨[], [], by simp [h]⟩
    · rintro ⟨pre, post, h⟩
      rcases List.append_eq_nil.mp h.symm with ⟨h1, h2⟩
      exact (List.append_eq_nil.mp h1).2
  | cons c rest ih =>
    simp only [sublistIn, Bool.or_eq_true, List.isPrefixOf_iff_prefix, ih]
    constructor
    · rintro (⟨t, ht⟩ | ⟨pre, post, h⟩)
      · exact ⟨[], t, by simp [ht]⟩
      · exact ⟨c :: pre, post, by simp [h]⟩
    · rintro ⟨pre, post, h⟩
      cases pre with
      | nil =>
        exact Or.inl ⟨post, by simpa using h.symm⟩
      | cons a pre₂ =>
        simp only [List.cons_append] at h
        exact Or.inr ⟨pre₂, post, (List.cons.injEq .. ▸ h).2⟩

/-! ### Data model

A raw record is one CSV row as read by `pd.read_csv` (app.py line 24):
each cell is optional, a `none` modelling an empty cell read as NaN.  The
two date columns are free text at this stage.  The variable group of
missed-match columns is kept as an association list from column name to
optional cell value. -/

structure RawRecord where
  name : Option String
  teamName : Option String
  position : Option String
  age : Option Int
  fifaRating : Option Int
  injury : Option String
  dateOfInjury : Option String
  dateOfReturn : Option String
  missed : List (String × Option String)
deriving DecidableEq, Repr

/-- A record after the date columns have been converted (app.py lines 38-39).
Dates are day numbers; `none` models NaT. -/
structure Record where
  name : Option String
  teamName : Option String
  position : Option String
  age : Option Int
  fifaRating : Option Int
  injury : Option String
  dateOfInjury : Option Int
  dateOfReturn : Option Int
  missed : List (String × Option String)
deriving DecidableEq, Repr

/-- One cell under `pd.to_datetime(,, errors=coerce)`: a missing cell stays
missing, and a value the parser rejects becomes NaT (`none`).  The parameter
`parse` abstracts the library's text-date parser as a map to day numbers. -/
def toDatetime (parse : String → Option Int) : Option String → Option Int
  | none => none
  | some s => parse s

/-- Date conversion of app.py lines 38-39 applied to one row. -/
def deriveRecord (parse : String → Option Int) (r : RawRecord) : Record :=
  { name := r.name
    teamName := r.teamName
    position := r.position
    age := r.age
    fifaRating := r.fifaRating
    injury := r.injury
    dateOfInjury := toDatetime parse r.dateOfInjury
    dateOfReturn := toDatetime parse r.dateOfReturn
    missed := r.missed }

/-- Recovery Duration (app.py line 42): `(df[Date of return] - df[Date of
Injury]).dt.days`.  Subtracting a NaT gives NaT, whose `.days` is NaN, so the
result is defined exactly when both dates are. -/
def recoveryDuration (r : Record) : Option Int :=
  match r.dateOfReturn, r.dateOfInjury with
  | some ret, some inj => some (ret - inj)
  | _, _ => none

/-! ### Completeness filter and column discovery -/

/-- Completeness filter (app.py line 45):
`df.dropna(subset=[Recovery Duration, Team Name, Position])`. -/
def dfClean (rows : List Record) : List Record :=
  rows.filter fun r =>
    (recoveryDuration r).isSome && r.teamName.isSome && r.position.isSome

/-- The name token the source greps the schema for at app.py line 49. -/
def missedToken : String :=
  "missed_match_Result"

/-- Missed-match column discovery (app.py line 49):
`[col for col in df.columns if missed_match_Result in col]`. -/
def missedMatchCols (columns : List String) : List String :=
  columns.filter fun c => hasSubstr c missedToken

/-! ### Selection filter (app.py lines 63-69) -/

/-- `df_clean[Team Name].isin(selected_teams)` for one row; `isin` is false on
a missing cell. -/
def teamIsin (selectedTeams : List String) (r : Record) : Bool :=
  match r.teamName with
  | some t => selectedTeams.contains t
  | none => false

/-- `df_filtered[Position].isin(selected_positions)` for one row. -/
def positionIsin (selectedPositions : List String) (r : Record) : Bool :=
  match r.position with
  | some p => selectedPositions.contains p
  | none => false

/-- Team stage of the selection filter (app.py lines 63-66): filter only when
the selection is non-empty, otherwise pass the table through. -/
def filterTeams (selectedTeams : List String) (rows : List Record) : List Record :=
  if !selectedTeams.isEmpty then rows.filter (teamIsin selectedTeams) else rows

/-- Position stage of the selection filter (app.py lines 68-69). -/
def filterPositions (selectedPositions : List String) (rows : List Record) : List Record :=
  if !selectedPositions.isEmpty then rows.filter (positionIsin selectedPositions) else rows

/-- The whole selection filter: team stage then position stage. -/
def applyFilters (selectedTeams selectedPositions : List String)
    (rows : List Record) : List Record :=
  filterPositions selectedPositions (filterTeams selectedTeams rows)

/-! ### Aggregator (app.py lines 76-149) -/

/-- Total Injuries Recorded KPI (app.py line 76): `len(df_filtered)`. -/
def totalInjuries (rows : List Record) : Nat :=
  rows.length

/-- Avg. Recovery Time KPI (app.py line 77):
`df_filtered[Recovery Duration].mean()`.  `Series.mean` skips missing values
and yields NaN (`none` here) on an empty series. -/
def avgRecovery (rows : List Record) : Option ℚ :=
  let vals := rows.filterMap recoveryDuration
  if vals.isEmpty then none
  else some ((vals.map fun v => (v : ℚ)).sum / vals.length)

/-- Text put in the Avg. Recovery Time metric card (app.py line 82):
the source interpolates `avg_recovery` into `"{:.1f} Days"` with no
empty-table guard, and Python renders a NaN float as the text `nan`.
Decimal formatting of a defined mean is abstracted as `fmt`. -/
def avgRecoveryText (fmt : ℚ → String) (rows : List Record) : String :=
  match avgRecovery rows with
  | none => "nan Days"
  | some q => fmt q ++ " Days"

/-- Least element of a list of strings, in the lexicographic order
`Series.mode` sorts by. -/
def listMin : List String → Option String
  | [] => none
  | a :: rest =>
    match listMin rest with
    | none => some a
    | some b => some (min a b)

/-- `Series.mode()[0]`: among the non-missing values of maximal multiplicity,
the least in sort order.  `none` models the index error `[0]` would raise when
the mode list is empty (no non-missing value at all). -/
def modeFirst (l : List String) : Option String :=
  listMin (l.dedup.filter fun v => ∀ u ∈ l.dedup, l.count u ≤ l.count v)

/-- Most Common Injury KPI (app.py line 78):
`df_filtered[Injury].mode()[0] if not df_filtered.empty else "N/A"`. -/
def mostCommonInjury (rows : List Record) : Option String :=
  if !rows.isEmpty then modeFirst (rows.filterMap fun r => r.injury)
  else some "N/A"

/-- `Series.value_counts()`: occurrence count per distinct non-missing value.
The source sorts the table descending by count for display; the order of
entries plays no role in the properties proved here, so first-occurrence
order is used. -/
def valueCounts (l : List String) : List (String × Nat) :=
  l.dedup.map fun v => (v, l.count v)

/-- Chart 1 data (app.py lines 94-95): `df_filtered[Team Name].value_counts()`. -/
def injuriesByTeam (rows : List Record) : List (String × Nat) :=
  valueCounts (rows.filterMap fun r => r.teamName)

/-- Chart 2 data (app.py line 103): the pie chart groups the filtered table by
`Position`, counting rows per distinct value. -/
def injuriesByPosition (rows : List Record) : List (String × Nat) :=
  valueCounts (rows.filterMap fun r => r.position)

/-- The cell of row `r` in missed-match column `c`; `none` when the cell is
missing or the column is absent. -/
def missedCell (r : Record) (c : String) : Option String :=
  match r.missed.lookup c with
  | some (some v) => some v
  | _ => none

/-- `df_filtered[col].dropna().tolist()` (app.py line 134): the defined values
of column `col`, in row order. -/
def colDropna (rows : List Record) (c : String) : List String :=
  rows.filterMap fun r => missedCell r c

/-- `results_list` (app.py lines 132-134): the values of every missed-match
column concatenated, column-major. -/
def resultsList (cols : List String) (rows : List Record) : List String :=
  cols.flatMap fun c => colDropna rows c

/-- `res_counts` (app.py lines 137-141): counts per distinct value of the
lowercased results. -/
def resCounts (cols : List String) (rows : List Record) : List (String × Nat) :=
  valueCounts ((resultsList cols rows).map String.toLower)

/-- Chart 5 outcome (app.py lines 136-149): the tally when `results_list` is
non-empty, and `none` for the `st.info` no-data notice otherwise. -/
def matchOutcomeTally (cols : List String) (rows : List Record) :
    Option (List (String × Nat)) :=
  if !(resultsList cols rows).isEmpty then some (resCounts cols rows) else none

/-- Everything the aggregator hands to the presentation layer. -/
structure Outputs where
  totalInjuries : Nat
  avgRecovery : Option ℚ
  mostCommonInjury : Option String
  injuriesByTeam : List (String × Nat)
  injuriesByPosition : List (String × Nat)
  matchOutcomeTally : Option (List (String × Nat))
deriving DecidableEq, Repr

/-- The aggregator over the filtered table: each output is computed
independently from `rows` exactly as in app.py lines 76-149. -/
def aggregate (cols : List String) (rows : List Record) : Outputs :=
  { totalInjuries := totalInjuries rows
    avgRecovery := avgRecovery rows
    mostCommonInjury := mostCommonInjury rows
    injuriesByTeam := injuriesByTeam rows
    injuriesByPosition := injuriesByPosition rows
    matchOutcomeTally := matchOutcomeTally cols rows }

/-! ### Record loader (app.py lines 16-31) -/

/-- The two fatal load failures. -/
inductive LoadError where
  | sourceNotFound (filename cwd : String)
  | sourceUnparsable (msg : String)
deriving DecidableEq, Repr

/-- The user-visible message `st.error` shows for each failure (app.py
lines 21 and 30). -/
def errorMessage : LoadError → String
  | .sourceNotFound f cwd =>
      "Error: The file \x27" ++ f ++ "\x27 was not found in the directory: " ++ cwd
  | .sourceUnparsable m => "Error loading data: " ++ m

/-- The ambient state `load_data` consults: `os.path.exists` and `os.getcwd`
become fields, and `pd.read_csv` becomes the decoded table (header columns and
rows) or the exception message raised on undecodable content. -/
structure Env where
  fileExists : Bool
  cwd : String
  readCsv : Except String (List String × List RawRecord)

/-- `load_data` together with the `try` block around its call (app.py
lines 16-31): a missing file stops with the not-found message, an exception
from `pd.read_csv` is caught and stops with the loading-error message, and
otherwise the decoded table is returned.  `st.stop()` makes both failures
terminal, which `Except.error` models. -/
def load_data (filename : String) (env : Env) :
    Except LoadError (List String × List RawRecord) :=
  if !env.fileExists then .error (.sourceNotFound filename env.cwd)
  else
    match env.readCsv with
    | .ok table => .ok table
    | .error m => .error (.sourceUnparsable m)

/-- The whole pipeline: load, derive, clean, filter, aggregate.  A load
failure short-circuits, so no downstream stage observes any data. -/
def runPipeline (filename : String) (env : Env) (parse : String → Option Int)
    (selectedTeams selectedPositions : List String) : Except LoadError Outputs :=
  match load_data filename env with
  | .error e => .error e
  | .ok (columns, raws) =>
      let records := raws.map (deriveRecord parse)
      let cleaned := dfClean records
      let filtered := applyFilters selectedTeams selectedPositions cleaned
      .ok (aggregate (missedMatchCols columns) filtered)

/-! ### Specification-side definitions

These follow the specification's wording, for comparison against the
definitions above, which follow the source. -/

/-- Modelled from the spec: "flatten all missed-match-result values across all
records and all such fields into one sequence" — record-major, each record
contributing the defined cells of the missed-match columns in column order. -/
def specFlatten (cols : List String) (rows : List Record) : List String :=
  rows.flatMap fun r => cols.filterMap fun c => missedCell r c

/-- Count held by a tally for value `v`; `0` when `v` has no entry. -/
def lookupCount (tally : List (String × Nat)) (v : String) : Nat :=
  match tally.lookup v with
  | some n => n
  | none => 0

/-! ### Concrete fixtures

Used only by witness theorems; the dates follow the scenario of spec §8. -/

/-- Date-parser fixture: the two scenario dates, ten days apart. -/
def sampleParse : String → Option Int := fun s =>
  if s = ("Jan 1, 2023") then some 0
  else if s = ("Jan 11, 2023") then some 10
  else none

/-- Row fixture from the spec scenario. -/
def sampleRaw : RawRecord :=
  { name := some ("Saka")
    teamName := some ("Arsenal")
    position := some ("GK")
    age := some 21
    fifaRating := some 86
    injury := some ("Hamstring")
    dateOfInjury := some ("Jan 1, 2023")
    dateOfReturn := some ("Jan 11, 2023")
    missed := [("missed_match_Result1", some ("Win")), ("missed_match_Result2", some ("win"))] }

/-- Row fixture with the two dates swapped, so the return precedes the injury. -/
def sampleRawInverted : RawRecord :=
  { sampleRaw with
    dateOfInjury := some ("Jan 11, 2023")
    dateOfReturn := some ("Jan 1, 2023") }

/-- Row fixture whose missed-match cell is empty. -/
def sampleRawNoMissed : RawRecord :=
  { sampleRaw with missed := [("missed_match_Result1", none)] }

/-- Environment fixture in which the CSV file does not resolve. -/
def sampleEnvMissing : Env :=
  { fileExists := false
    cwd := "/app"
    readCsv := .error ("boom") }

/-- Environment fixture in which the CSV file resolves but decoding raises. -/
def sampleEnvUnparsable : Env :=
  { fileExists := true
    cwd := "/app"
    readCsv := .error ("boom") }

/-! ### Helper lemmas -/

theorem lookup_map_key (l : List String) (f : String → Nat) (v : String) :
    (l.map fun u => (u, f u)).lookup v = if v ∈ l then some (f v) else none := by
  induction l with
  | nil => simp
  | cons u us ih =>
    simp only [List.map_cons, List.lookup_cons]
    by_cases h : v = u
    · subst h; simp
    · have hb : (v == u) = false := beq_false_of_ne h
      simp [hb, ih, h]

theorem lookupCount_valueCounts (l : List String) (v : String) :
    lookupCount (valueCounts l) v = l.count v := by
  rw [lookupCount, valueCounts, lookup_map_key]
  by_cases h : v ∈ l.dedup
  · simp [h]
  · have : v ∉ l := fun hv => h (List.mem_dedup.mpr hv)
    simp [h, List.count_eq_zero.mpr this]

theorem count_map_toLower (R : List String) (v : String) :
    (R.map String.toLower).count v = R.countP fun s => s.toLower == v := by
  induction R with
  | nil => rfl
  | cons s t ih => simp [List.count_cons, List.countP_cons, ih]

theorem countP_filterMap_opt {α : Type} (p : String → Bool) (f : α → Option String)
    (l : List α) :
    (l.filterMap f).countP p
      = l.countP fun a =>
          match f a with
          | some b => p b
          | none => false := by
  induction l with
  | nil => rfl
  | cons a t ih =>
    rw [List.filterMap_cons]
    cases hfa : f a with
    | none => simp [List.countP_cons, hfa, ih]
    | some b => simp [List.countP_cons, hfa, ih]

theorem countP_eq_sum_map {α : Type} (p : α → Bool) (l : List α) :
    l.countP p = (l.map fun a => if p a then 1 else 0).sum := by
  induction l with
  | nil => rfl
  | cons a t ih => simp [List.countP_cons, ih]; omega

theorem sum_map_add {α : Type} (f g : α → Nat) (l : List α) :
    (l.map fun b => f b + g b).sum = (l.map f).sum + (l.map g).sum := by
  induction l with
  | nil => rfl
  | cons b t ih => simp [ih]; omega

theorem sum_map_sum_comm {α β : Type} (f : α → β → Nat) (l₁ : List α) (l₂ : List β) :
    (l₁.map fun a => (l₂.map fun b => f a b).sum).sum
      = (l₂.map fun b => (l₁.map fun a => f a b).sum).sum := by
  induction l₁ with
  | nil => simp [eq_comm, List.sum_eq_zero]
  | cons a t ih =>
    simp only [List.map_cons, List.sum_cons, ih, sum_map_add]

theorem countP_resultsList_eq_specFlatten (p : String → Bool)
    (cols : List String) (rows : List Record) :
    (resultsList cols rows).countP p = (specFlatten cols rows).countP p := by
  have hL := List.countP_flatMap p cols (colDropna rows)
  have hR := List.countP_flatMap p rows fun r => cols.filterMap fun c => missedCell r c
  rw [resultsList, hL, specFlatten, hR]
  have hcol : ∀ c, (colDropna rows c).countP p
      = (rows.map fun r => if (match missedCell r c with
          | some b => p b
          | none => false) then 1 else 0).sum := by
    intro c
    rw [colDropna, countP_filterMap_opt, countP_eq_sum_map]
  have hrow : ∀ r : Record, ((cols.filterMap fun c => missedCell r c).countP p)
      = (cols.map fun c => if (match missedCell r c with
          | some b => p b
          | none => false) then 1 else 0).sum := by
    intro r
    rw [countP_filterMap_opt, countP_eq_sum_map]
  calc (cols.map (List.countP p ∘ colDropna rows)).sum
      = (cols.map fun c => (rows.map fun r => if (match missedCell r c with
          | some b => p b
          | none => false) then 1 else 0).sum).sum := by
        exact congrArg _ (List.map_congr_left fun c _ => hcol c)
    _ = (rows.map fun r => (cols.map fun c => if (match missedCell r c with
          | some b => p b
          | none => false) then 1 else 0).sum).sum := by
        exact (sum_map_sum_comm (fun c r => if (match missedCell r c with
          | some b => p b
          | none => false) then 1 else 0) cols rows)
    _ = (rows.map (List.countP p ∘ fun r => cols.filterMap fun c => missedCell r c)).sum := by
        exact congrArg _ (List.map_congr_left fun r _ => (hrow r).symm)

theorem sum_valueCounts (l : List String) :
    ((valueCounts l).map Prod.snd).sum = l.length := by
  rw [valueCounts, List.map_map]
  simpa using List.sum_map_count_dedup_eq_length l

theorem length_filterMap_of_isSome {α β : Type} (f : α → Option β) (l : List α)
    (h : ∀ a ∈ l, (f a).isSome) : (l.filterMap f).length = l.length := by
  induction l with
  | nil => rfl
  | cons a t ih =>
    rcases Option.isSome_iff_exists.mp (h a (by simp)) with ⟨b, hb⟩
    rw [List.filterMap_cons, hb]
    simp only [List.length_cons]
    rw [ih fun x hx => h x (by simp [hx])]

theorem mem_filterTeams (ts : List String) (rows : List Record) (r : Record) :
    r ∈ filterTeams ts rows → r ∈ rows := by
  rw [filterTeams]
  split
  · exact fun h => (List.mem_filter.mp h).1
  · exact id

theorem mem_filterPositions (ps : List String) (rows : List Record) (r : Record) :
    r ∈ filterPositions ps rows → r ∈ rows := by
  rw [filterPositions]
  split
  · exact fun h => (List.mem_filter.mp h).1
  · exact id

theorem mem_dfClean (df : List Record) (r : Record) :
    r ∈ dfClean df ↔ r ∈ df ∧ (recoveryDuration r).isSome = true
      ∧ r.teamName.isSome = true ∧ r.position.isSome = true := by
  rw [dfClean, List.mem_filter]
  simp [and_assoc]

theorem teamIsin_iff (ts : List String) (r : Record) :
    teamIsin ts r = true ↔ ∃ t, r.teamName = some t ∧ t ∈ ts := by
  cases h : r.teamName with
  | none => simp [teamIsin, h]
  | some t =>
    simp only [teamIsin, h, Option.some.injEq]
    constructor
    · intro hc
      exact ⟨t, rfl, List.elem_iff.mp hc⟩
    · rintro ⟨t₂, ht₂, hmem⟩
      subst ht₂
      exact List.elem_iff.mpr hmem

theorem positionIsin_iff (ps : List String) (r : Record) :
    positionIsin ps r = true ↔ ∃ p, r.position = some p ∧ p ∈ ps := by
  cases h : r.position with
  | none => simp [positionIsin, h]
  | some p =>
    simp only [positionIsin, h, Option.some.injEq]
    constructor
    · intro hc
      exact ⟨p, rfl, List.elem_iff.mp hc⟩
    · rintro ⟨p₂, hp₂, hmem⟩
      subst hp₂
      exact List.elem_iff.mpr hmem

/-! ### Claims -/

/-- C1: for every record, Recovery Duration equals the integer number of days
from the parsed Date of Injury to the parsed Date of return, and it is never
computed (stays undefined) when either of the two date fields fails to
parse. -/
theorem c1_recovery_duration (parse : String → Option Int) (raw : RawRecord) :
    (∀ d : Int,
      recoveryDuration (deriveRecord parse raw) = some d ↔
        ∃ inj ret : Int, toDatetime parse raw.dateOfInjury = some inj
          ∧ toDatetime parse raw.dateOfReturn = some ret ∧ d = ret - inj)
    ∧ (toDatetime parse raw.dateOfInjury = none
        ∨ toDatetime parse raw.dateOfReturn = none →
          recoveryDuration (deriveRecord parse raw) = none) := by
  have key : recoveryDuration (deriveRecord parse raw)
      = match toDatetime parse raw.dateOfReturn, toDatetime parse raw.dateOfInjury with
        | some ret, some inj => some (ret - inj)
        | _, _ => none := rfl
  constructor
  · intro d
    rw [key]
    rcases hi : toDatetime parse raw.dateOfInjury with _ | inj <;>
      rcases hr : toDatetime parse raw.dateOfReturn with _ | ret <;>
        simp [hi, hr, eq_comm]
  · intro h
    rw [key]
    rcases hi : toDatetime parse raw.dateOfInjury with _ | inj <;>
      rcases hr : toDatetime parse raw.dateOfReturn with _ | ret <;>
        simp_all

/-- C1 witness: on the scenario fixture the duration is 10 days, and with a
parser that rejects every date it is undefined. -/
theorem c1_witness :
    recoveryDuration (deriveRecord sampleParse sampleRaw) = some 10
    ∧ recoveryDuration (deriveRecord (fun _ => none) sampleRaw) = none :=
  ⟨((c1_recovery_duration sampleParse sampleRaw).1 10).mpr
      ⟨0, 10, by decide, by decide, by decide⟩,
    (c1_recovery_duration (fun _ => none) sampleRaw).2 (Or.inl rfl)⟩

/-- C2: the Completeness Filter keeps exactly the records with Recovery
Duration, Team Name and Position all defined, and no record lacking any of
the three reaches the downstream Selection Filter (hence no aggregate). -/
theorem c2_completeness_filter (df : List Record) (ts ps : List String) (r : Record) :
    (r ∈ dfClean df ↔ r ∈ df ∧ (recoveryDuration r).isSome = true
      ∧ r.teamName.isSome = true ∧ r.position.isSome = true)
    ∧ (r ∈ applyFilters ts ps (dfClean df) →
        (recoveryDuration r).isSome = true ∧ r.teamName.isSome = true
          ∧ r.position.isSome = true) := by
  refine ⟨mem_dfClean df r, fun h => ?_⟩
  have h1 : r ∈ filterTeams ts (dfClean df) := mem_filterPositions ps _ r h
  have h2 : r ∈ dfClean df := mem_filterTeams ts _ r h1
  exact ((mem_dfClean df r).mp h2).2

/-- C2 witness: the scenario record survives both filters, and the theorem
yields its three defined fields. -/
theorem c2_witness :
    (recoveryDuration (deriveRecord sampleParse sampleRaw)).isSome = true
    ∧ (deriveRecord sampleParse sampleRaw).teamName.isSome = true
    ∧ (deriveRecord sampleParse sampleRaw).position.isSome = true :=
  (c2_completeness_filter [deriveRecord sampleParse sampleRaw] [("Arsenal")] [("GK")]
    (deriveRecord sampleParse sampleRaw)).2 (by decide)

/-- C7: a column is discovered as a missed-match column exactly when it is in
the schema and its name contains the token, for any number of such columns. -/
theorem c7_column_discovery (columns : List String) (c : String) :
    c ∈ missedMatchCols columns
      ↔ c ∈ columns ∧ ∃ pre post, c.data = pre ++ missedToken.data ++ post := by
  simp only [missedMatchCols, List.mem_filter, hasSubstr, sublistIn_iff]

/-- C3: the Selection Filter keeps exactly the records whose team is selected
(all records when the team selection is empty) and whose position is selected
(all records when the position selection is empty); an empty selection stage
is the identity, and the two conditions compose as a logical AND. -/
theorem c3_selection_filter (rows : List Record) (ts ps : List String) :
    applyFilters ts ps rows
      = rows.filter fun r => (ts.isEmpty || teamIsin ts r) && (ps.isEmpty || positionIsin ps r)
    ∧ (∀ r, r ∈ applyFilters ts ps rows ↔ r ∈ rows
        ∧ (ts = [] ∨ ∃ t, r.teamName = some t ∧ t ∈ ts)
        ∧ (ps = [] ∨ ∃ p, r.position = some p ∧ p ∈ ps))
    ∧ filterTeams [] rows = rows
    ∧ filterPositions [] rows = rows := by
  have hmain : applyFilters ts ps rows
      = rows.filter fun r =>
          (ts.isEmpty || teamIsin ts r) && (ps.isEmpty || positionIsin ps r) := by
    rw [applyFilters, filterTeams, filterPositions]
    cases hts : ts.isEmpty <;> cases hps : ps.isEmpty
    · simp [List.filter_filter]
      exact List.filter_congr fun r _ => Bool.and_comm _ _
    · simp
    · simp
    · simp
  refine ⟨hmain, fun r => ?_, rfl, rfl⟩
  rw [hmain, List.mem_filter, Bool.and_eq_true, Bool.or_eq_true, Bool.or_eq_true]
  constructor
  · rintro ⟨hr, ⟨hteam, hpos⟩⟩
    refine ⟨hr, ?_, ?_⟩
    · rcases hteam with h | h
      · exact Or.inl (List.isEmpty_iff.mp h)
      · exact Or.inr ((teamIsin_iff ts r).mp h)
    · rcases hpos with h | h
      · exact Or.inl (List.isEmpty_iff.mp h)
      · exact Or.inr ((positionIsin_iff ps r).mp h)
  · rintro ⟨hr, hteam, hpos⟩
    refine ⟨hr, ?_, ?_⟩
    · rcases hteam with h | h
      · exact Or.inl (List.isEmpty_iff.mpr h)
      · exact Or.inr ((teamIsin_iff ts r).mpr h)
    · rcases hpos with h | h
      · exact Or.inl (List.isEmpty_iff.mpr h)
      · exact Or.inr ((positionIsin_iff ps r).mpr h)

/-- C4 counterexample: on the empty filtered table the mean-recovery KPI is
the NaN of `Series.mean` (`none` here), not a defined not-available value:
app.py line 77 computes the mean with no empty-table guard, and line 82
interpolates it into the metric text, which therefore reads "nan Days". -/
theorem c4_counterexample :
    (aggregate [] []).avgRecovery = none
    ∧ avgRecoveryText (fun _ => "") [] = "nan Days" :=
  ⟨rfl, rfl⟩

/-- C4 (amended): on an empty filtered table the aggregator yields total
count 0 and the "N/A" most-common-injury sentinel, the match-outcome tally
degrades to its no-data outcome, and nothing crashes; but the mean recovery
time is NaN (`none`), rendered into the display as "nan Days" rather than
reported as a defined not-available value. -/
theorem c4_empty_table (cols : List String) (fmt : ℚ → String) :
    (aggregate cols []).totalInjuries = 0
    ∧ (aggregate cols []).mostCommonInjury = some ("N/A")
    ∧ (aggregate cols []).avgRecovery = none
    ∧ avgRecoveryText fmt [] = "nan Days"
    ∧ (aggregate cols []).matchOutcomeTally = none := by
  have hres : resultsList cols ([] : List Record) = [] := by
    induction cols with
    | nil => rfl
    | cons c t ih => simp [resultsList, colDropna]
  exact ⟨rfl, rfl, rfl, rfl, by simp [aggregate, matchOutcomeTally, hres]⟩

/-- C5: for every value, the tally holds the occurrence count of that value in
the lowercased flattening of all missed-match cells over all records and
columns, and equivalently the count of all cells whose lowercasing is that
value, so differently-cased inputs land in the same bucket. -/
theorem c5_outcome_tally (cols : List String) (rows : List Record) (v : String) :
    lookupCount (resCounts cols rows) v
      = ((specFlatten cols rows).map String.toLower).count v
    ∧ lookupCount (resCounts cols rows) v
      = (specFlatten cols rows).countP fun s => s.toLower == v := by
  have h1 : lookupCount (resCounts cols rows) v
      = ((resultsList cols rows).map String.toLower).count v :=
    lookupCount_valueCounts _ v
  have h2 : ((resultsList cols rows).map String.toLower).count v
      = (resultsList cols rows).countP fun s => s.toLower == v :=
    count_map_toLower _ v
  have h3 := countP_resultsList_eq_specFlatten (fun s => s.toLower == v) cols rows
  have h4 := count_map_toLower (specFlatten cols rows) v
  exact ⟨by rw [h1, h2, h3, ← h4], by rw [h1, h2, h3]⟩

/-- C6: when the flattened missed-match sequence for the current selection is
empty, the tally reports the distinguished no-data outcome, while every other
output is still the one computed from the filtered table as usual. -/
theorem c6_no_data_tally (cols : List String) (rows : List Record)
    (h : resultsList cols rows = []) :
    (aggregate cols rows).matchOutcomeTally = none
    ∧ (aggregate cols rows).totalInjuries = totalInjuries rows
    ∧ (aggregate cols rows).avgRecovery = avgRecovery rows
    ∧ (aggregate cols rows).mostCommonInjury = mostCommonInjury rows
    ∧ (aggregate cols rows).injuriesByTeam = injuriesByTeam rows
    ∧ (aggregate cols rows).injuriesByPosition = injuriesByPosition rows := by
  exact ⟨by simp [aggregate, matchOutcomeTally, h], rfl, rfl, rfl, rfl, rfl⟩

/-- C6 witness: one record whose only missed-match cell is empty gives an
empty sequence, and the tally degrades to the no-data outcome. -/
theorem c6_witness :
    (aggregate ["missed_match_Result1"]
      [deriveRecord sampleParse sampleRawNoMissed]).matchOutcomeTally = none :=
  (c6_no_data_tally ["missed_match_Result1"]
    [deriveRecord sampleParse sampleRawNoMissed] (by decide)).1

/-- C8: a record whose parsed return date precedes its parsed injury date gets
a negative Recovery Duration that survives the Completeness and Selection
Filters unchanged and enters the mean-recovery computation; nothing clamps,
discards or corrects it. -/
theorem c8_negative_duration (parse : String → Option Int) (raw : RawRecord)
    (inj ret : Int) (tm p : String) (ts ps : List String)
    (hinj : toDatetime parse raw.dateOfInjury = some inj)
    (hret : toDatetime parse raw.dateOfReturn = some ret)
    (hlt : ret < inj)
    (htm : raw.teamName = some tm) (hp : raw.position = some p)
    (hts : tm ∈ ts) (hps : p ∈ ps) :
    recoveryDuration (deriveRecord parse raw) = some (ret - inj)
    ∧ ret - inj < 0
    ∧ applyFilters ts ps (dfClean [deriveRecord parse raw])
        = [deriveRecord parse raw]
    ∧ avgRecovery (applyFilters ts ps (dfClean [deriveRecord parse raw]))
        = some ((ret : ℚ) - (inj : ℚ)) := by
  have hdur : recoveryDuration (deriveRecord parse raw) = some (ret - inj) := by
    simp [recoveryDuration, deriveRecord, hinj, hret]
  have hclean : dfClean [deriveRecord parse raw] = [deriveRecord parse raw] := by
    have h1 : (recoveryDuration (deriveRecord parse raw)).isSome = true := by
      rw [hdur]; rfl
    have h2 : (deriveRecord parse raw).teamName.isSome = true := by
      simp [deriveRecord, htm]
    have h3 : (deriveRecord parse raw).position.isSome = true := by
      simp [deriveRecord, hp]
    simp [dfClean, h1, h2, h3]
  have hts₂ : ts.isEmpty = false := by
    cases ts with
    | nil => exact absurd hts (List.not_mem_nil tm)
    | cons a t => rfl
  have hps₂ : ps.isEmpty = false := by
    cases ps with
    | nil => exact absurd hps (List.not_mem_nil p)
    | cons a t => rfl
  have hteam : teamIsin ts (deriveRecord parse raw) = true :=
    (teamIsin_iff ts _).mpr ⟨tm, htm, hts⟩
  have hpos : positionIsin ps (deriveRecord parse raw) = true :=
    (positionIsin_iff ps _).mpr ⟨p, hp, hps⟩
  have hfilt : applyFilters ts ps (dfClean [deriveRecord parse raw])
      = [deriveRecord parse raw] := by
    rw [hclean, applyFilters, filterTeams, filterPositions, hts₂, hps₂]
    simp [hteam, hpos]
  refine ⟨hdur, by omega, hfilt, ?_⟩
  rw [hfilt]
  simp [avgRecovery, hdur]

/-- C8 witness: with the scenario dates swapped the duration is minus ten
days, the record survives both filters, and the mean over the one-record
table is that negative value. -/
theorem c8_witness :
    recoveryDuration (deriveRecord sampleParse sampleRawInverted) = some (0 - 10)
    ∧ (0 : Int) - 10 < 0
    ∧ applyFilters [("Arsenal")] [("GK")]
        (dfClean [deriveRecord sampleParse sampleRawInverted])
        = [deriveRecord sampleParse sampleRawInverted]
    ∧ avgRecovery (applyFilters [("Arsenal")] [("GK")]
        (dfClean [deriveRecord sampleParse sampleRawInverted]))
        = some ((0 : ℚ) - (10 : ℚ)) :=
  c8_negative_duration sampleParse sampleRawInverted 10 0 ("Arsenal") ("GK")
    [("Arsenal")] [("GK")] (by decide) (by decide) (by decide) (by decide)
    (by decide) (by decide) (by decide)

theorem hasSubstr_append (a b c : String) : hasSubstr (a ++ b ++ c) b = true := by
  rw [hasSubstr]
  rw [sublistIn_iff]
  exact ⟨a.data, c.data, by simp [String.data_append]⟩

/-- C9 counterexample: when the file resolves but decoding raises, the
surfaced message is the exception text of app.py line 30 and does not name
the CSV file, refuting the claim that a message naming the resource is
surfaced in either failure case. -/
theorem c9_counterexample :
    load_data ("player_injuries_impact.csv") sampleEnvUnparsable
      = .error (.sourceUnparsable ("boom"))
    ∧ hasSubstr (errorMessage (.sourceUnparsable ("boom")))
        ("player_injuries_impact.csv") = false :=
  ⟨rfl, by decide⟩

/-- C9 (amended): the Record Loader returns the decoded table, or fails
terminally with the not-found error when the source does not resolve —
surfacing a message that names the missing file — or with the unparsable
error when decoding raises, surfacing a message that carries the decoder's
exception text (but not necessarily the file name); in either failure case
the pipeline produces no downstream output and no retry occurs. -/
theorem c9_loader (filename : String) (env : Env) (parse : String → Option Int)
    (ts ps : List String) :
    (env.fileExists = false →
      load_data filename env = .error (.sourceNotFound filename env.cwd)
      ∧ runPipeline filename env parse ts ps
          = .error (.sourceNotFound filename env.cwd)
      ∧ hasSubstr (errorMessage (.sourceNotFound filename env.cwd)) filename = true)
    ∧ (∀ m, env.fileExists = true → env.readCsv = .error m →
      load_data filename env = .error (.sourceUnparsable m)
      ∧ runPipeline filename env parse ts ps = .error (.sourceUnparsable m)
      ∧ hasSubstr (errorMessage (.sourceUnparsable m)) m = true)
    ∧ (∀ table, env.fileExists = true → env.readCsv = .ok table →
      load_data filename env = .ok table) := by
  refine ⟨fun h => ?_, fun m h hcsv => ?_, fun table h hcsv => ?_⟩
  · have hl : load_data filename env = .error (.sourceNotFound filename env.cwd) := by
      simp [load_data, h]
    have hmsg : errorMessage (.sourceNotFound filename env.cwd)
        = "Error: The file \x27" ++ filename
            ++ ("\x27 was not found in the directory: " ++ env.cwd) := by
      simp [errorMessage, String.append_assoc]
    refine ⟨hl, by simp [runPipeline, hl], ?_⟩
    rw [hmsg]
    exact hasSubstr_append _ _ _
  · have hl : load_data filename env = .error (.sourceUnparsable m) := by
      simp [load_data, h, hcsv]
    have hmsg : errorMessage (.sourceUnparsable m)
        = "Error loading data: " ++ m ++ "" := by
      simp [errorMessage]
    refine ⟨hl, by simp [runPipeline, hl], ?_⟩
    rw [hmsg]
    exact hasSubstr_append _ _ _
  · simp [load_data, h, hcsv]

/-- C9 witness: with the CSV absent the loader and the whole pipeline stop
with the not-found error, whose message names the file. -/
theorem c9_witness :
    load_data ("player_injuries_impact.csv") sampleEnvMissing
      = .error (.sourceNotFound ("player_injuries_impact.csv") ("/app"))
    ∧ runPipeline ("player_injuries_impact.csv") sampleEnvMissing
        (fun _ => none) [] []
      = .error (.sourceNotFound ("player_injuries_impact.csv") ("/app"))
    ∧ hasSubstr
        (errorMessage (.sourceNotFound ("player_injuries_impact.csv") ("/app")))
        ("player_injuries_impact.csv") = true :=
  (c9_loader ("player_injuries_impact.csv") sampleEnvMissing
    (fun _ => none) [] []).1 rfl

/-- C10: the grouped-by-team counts of the filtered table sum to the
total-count KPI, and so do the grouped-by-position counts, because every
record surviving the Completeness Filter has both fields defined. -/
theorem c10_group_counts_sum (df : List Record) (ts ps : List String) :
    ((injuriesByTeam (applyFilters ts ps (dfClean df))).map Prod.snd).sum
        = totalInjuries (applyFilters ts ps (dfClean df))
    ∧ ((injuriesByPosition (applyFilters ts ps (dfClean df))).map Prod.snd).sum
        = totalInjuries (applyFilters ts ps (dfClean df)) := by
  have hmem : ∀ r ∈ applyFilters ts ps (dfClean df),
      r.teamName.isSome = true ∧ r.position.isSome = true := by
    intro r hr
    have h1 : r ∈ filterTeams ts (dfClean df) := mem_filterPositions ps _ r hr
    have h2 : r ∈ dfClean df := mem_filterTeams ts _ r h1
    have h3 := (mem_dfClean df r).mp h2
    exact ⟨h3.2.2.1, h3.2.2.2⟩
  constructor
  · rw [injuriesByTeam, sum_valueCounts, totalInjuries,
      length_filterMap_of_isSome _ _ fun r hr => (hmem r hr).1]
  · rw [injuriesByPosition, sum_valueCounts, totalInjuries,
      length_filterMap_of_isSome _ _ fun r hr => (hmem r hr).2]

end InjuryDash
